import Mathlib

/-!
Shallow embedding of the clicker-game economy engine (src/api.py and
src/DATABASE/base.py) and proofs about its claims.

Conventions:
* Python ints are modelled as `ℤ` (or `ℕ` where the source value is a
  non-negative counter or a timestamp).
* Python floats produced by the code (`1.5 ** k` in `get_max_energy`, the
  skin-bonus multiplier arithmetic in `calculate_passive_income`) are
  modelled as `ℚ`.  On the value range the claims quantify over
  (levels ≤ 14, table entries ≤ 100000, small powers of 1.5) every float
  operation the source performs is exact in IEEE double precision, so the
  rational model computes the same numbers as the Python code.
* Wall-clock instants are `ℕ` (seconds); `datetime` subtraction becomes
  truncated `ℕ` subtraction, guarded by `last ≤ now` hypotheses where
  the order matters.
* A `fastapi` `HTTPException` raised before any `update_user` call is an
  `Except.error`; the persisted state otherwise is the returned value.
-/

namespace Clicker

/-- src/api.py line 32-36: the per-track price tables of `UPGRADE_PRICES`.
All three tracks share this identical 14-entry list. -/
def UPGRADE_PRICE_TABLE : List ℤ :=
  [100, 200, 600, 900, 1500, 2000, 4000, 7000, 10000, 20000,
   30000, 40000, 50000, 100000]

/-- src/api.py line 32-36: `UPGRADE_PRICES`, a dict keyed by boost-track
name.  Only "multitap", "profit" and "energy" are keys; "luck" is not. -/
def UPGRADE_PRICES : List (String × List ℤ) :=
  [("multitap", UPGRADE_PRICE_TABLE),
   ("profit", UPGRADE_PRICE_TABLE),
   ("energy", UPGRADE_PRICE_TABLE)]

/-- src/api.py line 38: `HOUR_VALUES`. -/
def HOUR_VALUES : List ℕ :=
  [100, 150, 250, 500, 1000, 1250, 1500, 1800, 2000, 2500, 3000]

/-- src/api.py line 39: `ENERGY_VALUES` (as rationals because
`get_max_energy` mixes them with float arithmetic). -/
def ENERGY_VALUES : List ℚ :=
  [100, 200, 300, 500, 650, 700, 850, 1000, 1150, 1200, 1400]

/-- src/api.py line 150-154: the `UpgradeRequest.validate_boost_type`
validator accepts exactly the keys of `UPGRADE_PRICES`. -/
def validateBoostType (s : String) : Bool :=
  (UPGRADE_PRICES.lookup s).isSome

/-- src/api.py line 222-224: `get_tap_value(level) = 1 + level`. -/
def getTapValue (level : ℕ) : ℤ := 1 + (level : ℤ)

/-- src/api.py line 226-230: `get_hour_value`.  Past the table's end the
last entry is doubled per extra level.  Python `HOUR_VALUES[-1]` is the
last element; the exponent is `level - len + 1`. -/
def getHourValue (level : ℕ) : ℕ :=
  if level ≥ HOUR_VALUES.length then
    HOUR_VALUES.getLastD 0 * 2 ^ (level - HOUR_VALUES.length + 1)
  else
    HOUR_VALUES.getD level 0

/-- src/api.py line 232-236: `get_max_energy`.  Past the table's end the
last entry is multiplied by the float `1.5 ** (level - len + 1)`, so the
result is a float (here: a rational, exact on the reachable range). -/
def getMaxEnergy (level : ℕ) : ℚ :=
  if level ≥ ENERGY_VALUES.length then
    ENERGY_VALUES.getLastD 0 * (3 / 2) ^ (level - ENERGY_VALUES.length + 1)
  else
    ENERGY_VALUES.getD level 0

/-- The in-memory view of one `users` row as the api endpoints read and
write it (src/DATABASE/base.py line 18-53, `get_user` line 75-101).
`megaBoostExpiresAt` models `extra_data["active_boosts"]["mega_boost"]
["expires_at"]` (absent entry = `none`); `lastPassiveIncome` models the
nullable `last_passive_income` timestamp. -/
structure UserState where
  coins : ℤ
  energy : ℚ
  maxEnergy : ℚ
  multitapLevel : ℕ
  profitLevel : ℕ
  energyLevel : ℕ
  luckLevel : ℕ
  profitPerHour : ℕ
  megaBoostExpiresAt : Option ℕ
  lastPassiveIncome : Option ℕ
  deriving Repr, DecidableEq

/-- Errors the click endpoint can raise after the anti-spam gate. -/
inductive ClickError
  | notEnoughEnergy
  deriving Repr, DecidableEq

/-- The response body of `/api/click` (src/api.py line 360-367). -/
structure ClickResult where
  coins : ℤ
  energy : ℚ
  tapValue : ℤ
  multiplier : ℤ
  actualGain : ℤ
  megaBoostActive : Bool
  deriving Repr, DecidableEq

/-- src/api.py line 317-339: the mega-boost check inside `process_click`.
An entry with `now ≤ expires` is live; an expired entry is deleted
(written back) before the rest of the click proceeds.  Returns the
possibly swept state and whether the boost is live. -/
def sweepMegaBoost (u : UserState) (now : ℕ) : UserState × Bool :=
  match u.megaBoostExpiresAt with
  | none => (u, false)
  | some e =>
      if now ≤ e then (u, true)
      else ({ u with megaBoostExpiresAt := none }, false)

/-- src/api.py line 305-367: `process_click` after the anti-spam and
user-lookup gates.  Returns the state as persisted (the expired-boost
sweep is persisted even when the click is then rejected for lack of
energy) and either the response or the raised error. -/
def clickStep (u : UserState) (now : ℕ) :
    UserState × Except ClickError ClickResult :=
  let swept := sweepMegaBoost u now
  let u1 := swept.1
  let active := swept.2
  let baseTap := getTapValue u1.multitapLevel
  let actualGain := baseTap * (if active then 2 else 1)
  if active then
    let u2 := { u1 with coins := u1.coins + actualGain }
    (u2, .ok { coins := u2.coins, energy := u2.energy, tapValue := baseTap,
               multiplier := 2, actualGain := actualGain,
               megaBoostActive := true })
  else if u1.energy < 1 then
    (u1, .error .notEnoughEnergy)
  else
    let u2 := { u1 with energy := u1.energy - 1,
                        coins := u1.coins + actualGain }
    (u2, .ok { coins := u2.coins, energy := u2.energy, tapValue := baseTap,
               multiplier := 1, actualGain := actualGain,
               megaBoostActive := false })

/-- Running a whole sequence of taps: each list entry is the wall-clock
instant of one `/api/click` request. -/
def runClicks (u : UserState) (nows : List ℕ) : UserState :=
  nows.foldl (fun s t => (clickStep s t).1) u

/-- The ledger invariant of claim C1. -/
def LedgerInv (u : UserState) : Prop :=
  0 ≤ u.energy ∧ u.energy ≤ u.maxEnergy ∧ 0 ≤ u.coins

instance : DecidablePred LedgerInv := fun u => by
  unfold LedgerInv; infer_instance

/-- Errors `/api/upgrade` can raise.  `invalidBoostType` models the
pydantic validator rejecting a `boost_type` that is not a key of
`UPGRADE_PRICES` (src/api.py line 150-154), which happens before
`process_upgrade` runs. -/
inductive UpgradeError
  | invalidBoostType
  | maxLevelReached
  | notEnoughCoins
  deriving Repr, DecidableEq

/-- src/api.py line 384: `user.get(f"{boost_type}_level", 0)`. -/
def getBoostLevel (u : UserState) (boostType : String) : ℕ :=
  if boostType = "multitap" then u.multitapLevel
  else if boostType = "profit" then u.profitLevel
  else if boostType = "energy" then u.energyLevel
  else if boostType = "luck" then u.luckLevel
  else 0

/-- src/api.py line 395: `user[f"{boost_type}_level"] = current_level + 1`
(`update_user` only persists the known level columns). -/
def setBoostLevel (u : UserState) (boostType : String) (lvl : ℕ) : UserState :=
  if boostType = "multitap" then { u with multitapLevel := lvl }
  else if boostType = "profit" then { u with profitLevel := lvl }
  else if boostType = "energy" then { u with energyLevel := lvl }
  else u

/-- src/api.py line 375-421: `process_upgrade` (after user lookup),
together with the request validator.  On success the price is debited,
the level incremented, and the derived stats recomputed from the new
level: the profit track caches `profit_per_hour`, the energy track sets
`max_energy` to `get_max_energy(new_level)` and refills `energy` to it. -/
def processUpgrade (u : UserState) (boostType : String) :
    Except UpgradeError UserState :=
  match UPGRADE_PRICES.lookup boostType with
  | none => .error .invalidBoostType
  | some prices =>
      let currentLevel := getBoostLevel u boostType
      if currentLevel ≥ prices.length then .error .maxLevelReached
      else
        let price := prices.getD currentLevel 0
        if u.coins < price then .error .notEnoughCoins
        else
          let u1 := setBoostLevel { u with coins := u.coins - price }
                      boostType (currentLevel + 1)
          if boostType = "profit" then
            .ok { u1 with profitPerHour := getHourValue (currentLevel + 1) }
          else if boostType = "energy" then
            let newMax := getMaxEnergy (currentLevel + 1)
            .ok { u1 with maxEnergy := newMax, energy := newMax }
          else
            .ok u1

/-- The response body of `/api/activate-mega-boost`
(src/api.py line 550-555 and 570-574). -/
structure ActivateResult where
  success : Bool
  alreadyActive : Bool
  remainingSeconds : Option ℕ
  expiresAt : Option ℕ
  deriving Repr, DecidableEq

/-- src/api.py line 528-574: `activate_mega_boost` (after user lookup).
If an entry exists and `now < expires` the call fails, reports the
remaining seconds and performs no write; otherwise it writes
`expires_at = now + 2 minutes` (120 seconds). -/
def activateMegaBoost (u : UserState) (now : ℕ) :
    ActivateResult × UserState :=
  match u.megaBoostExpiresAt with
  | some e =>
      if now < e then
        ({ success := false, alreadyActive := true,
           remainingSeconds := some (e - now), expiresAt := some e }, u)
      else
        let e' := now + 120
        ({ success := true, alreadyActive := false,
           remainingSeconds := none, expiresAt := some e' },
         { u with megaBoostExpiresAt := some e' })
  | none =>
      let e' := now + 120
      ({ success := true, alreadyActive := false,
         remainingSeconds := none, expiresAt := some e' },
       { u with megaBoostExpiresAt := some e' })

/-- The `skin_bonus` request payload of `/api/passive-income`
(src/api.py line 1037-1046): a `type` of `multiplier`, `interval` or
`both`, carrying a float multiplier and/or an interval in minutes. -/
inductive SkinBonus
  | multiplier (value : ℚ)
  | interval (minutes : ℕ)
  | both (multiplier : ℚ) (minutes : ℕ)
  deriving Repr, DecidableEq

/-- src/api.py line 1034-1046: the effective multiplier (default 1.0). -/
def bonusMultiplier : Option SkinBonus → ℚ
  | some (.multiplier v) => v
  | some (.both m _) => m
  | _ => 1

/-- src/api.py line 1034-1046: the effective interval in minutes
(default 10). -/
def bonusIntervalMinutes : Option SkinBonus → ℕ
  | some (.interval m) => m
  | some (.both _ m) => m
  | _ => 10

/-- Python `int(...)` on a float/rational: truncation toward zero. -/
def pyInt (q : ℚ) : ℤ := if 0 ≤ q then ⌊q⌋ else ⌈q⌉

/-- src/api.py line 256-261: `calculate_passive_income`.
`hour_value // 6` is non-negative integer floor division (ℕ division
here); the product with the float multiplier is truncated by `int()`. -/
def calculatePassiveIncome (profitLevel minutesPassed : ℕ)
    (bonusMult : ℚ) : ℤ :=
  let hourValue := getHourValue profitLevel
  let baseIncomePer10min := hourValue / 6
  let cycles := max 1 (minutesPassed / 10)
  pyInt ((baseIncomePer10min : ℚ) * (cycles : ℚ) * bonusMult)

/-- The observable outcome of `/api/passive-income`: the persisted coins
and `last_passive_income` value, and the reported income. -/
structure PassiveResult where
  coins : ℤ
  lastPassiveIncome : Option ℕ
  income : ℤ
  deriving Repr, DecidableEq

/-- src/api.py line 1019-1068: `passive_income` (after user lookup).
Income is computed only when `last_passive_income` is unset or
`now - last ≥ interval`; `minutes_passed = int((now-last).total_seconds()
/ 60)` (here `(now-last)/60` over ℕ, with `last ≤ now` assumed by the
claims), and the unset case passes `10` minutes to the calculator.  The
coins and timestamp are written only when the computed income is
positive; otherwise the call returns income 0 and persists nothing. -/
def passiveIncome (u : UserState) (now : ℕ) (bonus : Option SkinBonus) :
    PassiveResult :=
  let mult := bonusMultiplier bonus
  let intervalSecs := 60 * bonusIntervalMinutes bonus
  match u.lastPassiveIncome with
  | none =>
      let totalIncome := calculatePassiveIncome u.profitLevel 10 mult
      if 0 < totalIncome then
        { coins := u.coins + totalIncome, lastPassiveIncome := some now,
          income := totalIncome }
      else
        { coins := u.coins, lastPassiveIncome := none, income := 0 }
  | some last =>
      if intervalSecs ≤ now - last then
        let minutesPassed := (now - last) / 60
        let totalIncome :=
          calculatePassiveIncome u.profitLevel minutesPassed mult
        if 0 < totalIncome then
          { coins := u.coins + totalIncome, lastPassiveIncome := some now,
            income := totalIncome }
        else
          { coins := u.coins, lastPassiveIncome := some last, income := 0 }
      else
        { coins := u.coins, lastPassiveIncome := some last, income := 0 }

/-- One `users` row as the referral operations in src/DATABASE/base.py
read and write it. -/
structure DbUser where
  coins : ℤ
  referrerId : Option ℤ
  referralCount : ℕ
  referralEarnings : ℤ
  deriving Repr, DecidableEq

/-- The users table, keyed by `user_id`. -/
def DB : Type := ℤ → Option DbUser

/-- src/DATABASE/base.py line 115: `BONUS_AMOUNT = 1000`. -/
def BONUS_AMOUNT : ℤ := 1000

/-- src/DATABASE/base.py line 103-122: `add_referral_bonus`.  If the
referrer's row does not exist the credit is skipped (logged only, never
retried); otherwise the referrer gets `coins += 1000`,
`referral_count += 1`, `referral_earnings += 1000`. -/
def addReferralBonus (db : DB) (referrerId : ℤ) : DB :=
  match db referrerId with
  | none => db
  | some r =>
      fun uid =>
        if uid = referrerId then
          some { r with coins := r.coins + BONUS_AMOUNT,
                        referralCount := r.referralCount + 1,
                        referralEarnings := r.referralEarnings + BONUS_AMOUNT }
        else db uid

/-- src/DATABASE/base.py line 211-226: the freshly created row of
`add_user` (only the referral-relevant columns). -/
def newDbUser (referrerId : Option ℤ) : DbUser :=
  { coins := 0, referrerId := referrerId, referralCount := 0,
    referralEarnings := 0 }

/-- src/DATABASE/base.py line 200-235: `add_user`.  An existing row is
returned untouched; otherwise the row is created with the given
`referrer_id` and, when `referrer_id` is truthy (`some r` with `r ≠ 0`),
the referral bonus is credited as part of the same creation. -/
def addUser (db : DB) (userId : ℤ) (referrerId : Option ℤ) : DB :=
  match db userId with
  | some _ => db
  | none =>
      let db1 : DB := fun uid =>
        if uid = userId then some (newDbUser referrerId) else db uid
      match referrerId with
      | some rid => if rid = 0 then db1 else addReferralBonus db1 rid
      | none => db1

/-- src/api.py line 473-502: `/api/register` — an existing user returns
`status: exists` without calling `create_user`; otherwise `add_user`
runs. -/
def registerUser (db : DB) (userId : ℤ) (referrerId : Option ℤ) : DB :=
  match db userId with
  | some _ => db
  | none => addUser db userId referrerId

/-- src/DATABASE/base.py line 75-101: `get_user` performs no write; the
table after a read is the table before it. -/
def getUserDb (db : DB) (_userId : ℤ) : DB := db

end Clicker

namespace Clicker

/-- A concrete ledger row used to instantiate theorems: a registered user
with 100 coins' worth of energy headroom and no boost. -/
def baseUser : UserState :=
  { coins := 0, energy := 100, maxEnergy := 100, multitapLevel := 0,
    profitLevel := 0, energyLevel := 0, luckLevel := 0, profitPerHour := 100,
    megaBoostExpiresAt := none, lastPassiveIncome := none }

/-- A boosted variant of `baseUser`: zero energy, mega boost until
instant 100. -/
def boostedUser : UserState :=
  { baseUser with energy := 0, megaBoostExpiresAt := some 100 }

/-- A one-row users table holding only user 1, for referral instances. -/
def dbW : DB := fun uid =>
  if uid = 1 then
    some { coins := 5, referrerId := none, referralCount := 0,
           referralEarnings := 0 }
  else none

lemma getTapValue_pos (l : ℕ) : 0 < getTapValue l := by
  unfold getTapValue; positivity

lemma sweepMegaBoost_fields (u : UserState) (now : ℕ) :
    (sweepMegaBoost u now).1.coins = u.coins ∧
    (sweepMegaBoost u now).1.energy = u.energy ∧
    (sweepMegaBoost u now).1.maxEnergy = u.maxEnergy ∧
    (sweepMegaBoost u now).1.multitapLevel = u.multitapLevel := by
  unfold sweepMegaBoost
  cases u.megaBoostExpiresAt with
  | none => exact ⟨rfl, rfl, rfl, rfl⟩
  | some e => by_cases h : now ≤ e <;> simp [h]

lemma clickStep_preserves_inv (u : UserState) (now : ℕ)
    (h : LedgerInv u) : LedgerInv (clickStep u now).1 := by
  obtain ⟨h0, h1, h2⟩ := h
  have htap : (0 : ℤ) < getTapValue u.multitapLevel := getTapValue_pos _
  cases hb : u.megaBoostExpiresAt with
  | none =>
      by_cases he : u.energy < 1
      · simpa [clickStep, sweepMegaBoost, hb, he, LedgerInv] using ⟨h0, h1, h2⟩
      · push_neg at he
        refine ⟨?_, ?_, ?_⟩ <;>
          simp [clickStep, sweepMegaBoost, hb, not_lt.mpr he] <;> linarith
  | some e =>
      by_cases hle : now ≤ e
      · refine ⟨?_, ?_, ?_⟩ <;>
          simp [clickStep, sweepMegaBoost, hb, hle] <;> linarith
      · by_cases he : u.energy < 1
        · simpa [clickStep, sweepMegaBoost, hb, hle, he, LedgerInv]
            using ⟨h0, h1, h2⟩
        · push_neg at he
          refine ⟨?_, ?_, ?_⟩ <;>
            simp [clickStep, sweepMegaBoost, hb, hle, not_lt.mpr he] <;> linarith

lemma runClicks_preserves_inv (nows : List ℕ) :
    ∀ u : UserState, LedgerInv u → LedgerInv (runClicks u nows) := by
  induction nows with
  | nil => intro u h; simpa [runClicks] using h
  | cons t ts ih =>
      intro u h
      simpa [runClicks, List.foldl_cons] using
        ih _ (clickStep_preserves_inv u t h)

/-- C1: for every registered user and every finite sequence of taps
starting from a ledger with `0 ≤ energy ≤ max_energy` and `coins ≥ 0`,
the invariant holds after every tap, and a tap with no live mega boost
and `energy < 1` is rejected with the ledger's coins, energy and levels
unchanged (only the expired boost slot may have been swept). -/
theorem tap_sequence_preserves_ledger_invariant (u : UserState)
    (h : LedgerInv u) :
    (∀ nows : List ℕ, LedgerInv (runClicks u nows)) ∧
    (∀ now : ℕ, (sweepMegaBoost u now).2 = false → u.energy < 1 →
       (clickStep u now).2 = .error .notEnoughEnergy ∧
       (clickStep u now).1.coins = u.coins ∧
       (clickStep u now).1.energy = u.energy ∧
       (clickStep u now).1.maxEnergy = u.maxEnergy ∧
       (clickStep u now).1.multitapLevel = u.multitapLevel ∧
       (clickStep u now).1.profitLevel = u.profitLevel ∧
       (clickStep u now).1.energyLevel = u.energyLevel ∧
       (clickStep u now).1.luckLevel = u.luckLevel) := by
  refine ⟨fun nows => runClicks_preserves_inv nows u h, ?_⟩
  intro now hsweep he
  cases hb : u.megaBoostExpiresAt with
  | none => simp [clickStep, sweepMegaBoost, hb, he]
  | some e =>
      by_cases hle : now ≤ e
      · exfalso
        rw [show (sweepMegaBoost u now).2 = true by
          simp [sweepMegaBoost, hb, hle]] at hsweep
        simp at hsweep
      · simp [clickStep, sweepMegaBoost, hb, hle, he]

/-- Witness for C1 at a concrete ledger. -/
theorem tap_sequence_preserves_ledger_invariant_witness :
    LedgerInv baseUser ∧
    ((∀ nows : List ℕ, LedgerInv (runClicks baseUser nows)) ∧
     (∀ now : ℕ, (sweepMegaBoost baseUser now).2 = false →
        baseUser.energy < 1 →
        (clickStep baseUser now).2 = .error .notEnoughEnergy ∧
        (clickStep baseUser now).1.coins = baseUser.coins ∧
        (clickStep baseUser now).1.energy = baseUser.energy ∧
        (clickStep baseUser now).1.maxEnergy = baseUser.maxEnergy ∧
        (clickStep baseUser now).1.multitapLevel = baseUser.multitapLevel ∧
        (clickStep baseUser now).1.profitLevel = baseUser.profitLevel ∧
        (clickStep baseUser now).1.energyLevel = baseUser.energyLevel ∧
        (clickStep baseUser now).1.luckLevel = baseUser.luckLevel)) :=
  ⟨by norm_num [LedgerInv, baseUser],
   tap_sequence_preserves_ledger_invariant baseUser
     (by norm_num [LedgerInv, baseUser])⟩

/-- C4: a tap while the mega boost is live (now is at or before
`expires_at`) leaves energy untouched, has no energy precondition, and
credits `base_tap * 2` coins. -/
theorem mega_boost_tap_skips_energy (u : UserState) (now e : ℕ)
    (hb : u.megaBoostExpiresAt = some e) (hle : now ≤ e) :
    (clickStep u now).1.energy = u.energy ∧
    (clickStep u now).1.coins =
      u.coins + getTapValue u.multitapLevel * 2 ∧
    (clickStep u now).2 =
      .ok { coins := u.coins + getTapValue u.multitapLevel * 2,
            energy := u.energy,
            tapValue := getTapValue u.multitapLevel,
            multiplier := 2,
            actualGain := getTapValue u.multitapLevel * 2,
            megaBoostActive := true } := by
  refine ⟨?_, ?_, ?_⟩ <;> simp [clickStep, sweepMegaBoost, hb, hle]

/-- Witness for C4: a boosted user at zero energy still taps and gains
`1 * 2` coins. -/
theorem mega_boost_tap_skips_energy_witness :
    boostedUser.megaBoostExpiresAt = some 100 ∧ 50 ≤ 100 ∧
    (clickStep boostedUser 50).1.energy = boostedUser.energy ∧
    (clickStep boostedUser 50).1.coins =
      boostedUser.coins + getTapValue boostedUser.multitapLevel * 2 :=
  ⟨rfl, by norm_num,
   (mega_boost_tap_skips_energy boostedUser 50 100 rfl (by norm_num)).1,
   (mega_boost_tap_skips_energy boostedUser 50 100 rfl (by norm_num)).2.1⟩

/-- C3 amended: no random draw or luck classification happens on a tap.
The resolved multiplier is 2 exactly when the mega boost is live and 1
otherwise, the coin credit is `base_tap` times that multiplier, and the
outcome is independent of `luck_level`. -/
theorem tap_multiplier_is_boost_only (u : UserState) (now : ℕ)
    (r : ClickResult) (h : (clickStep u now).2 = .ok r) :
    r.multiplier = (if (sweepMegaBoost u now).2 then 2 else 1) ∧
    r.tapValue = getTapValue u.multitapLevel ∧
    r.actualGain = r.tapValue * r.multiplier ∧
    r.coins = u.coins + r.actualGain ∧
    (∀ l : ℕ,
       (clickStep { u with luckLevel := l } now).2 = (clickStep u now).2) := by
  have hout : ∀ l : ℕ,
      (clickStep { u with luckLevel := l } now).2 = (clickStep u now).2 := by
    intro l
    cases hb : u.megaBoostExpiresAt with
    | none =>
        by_cases he : u.energy < 1 <;>
          simp [clickStep, sweepMegaBoost, hb, he]
    | some e =>
        by_cases hle : now ≤ e
        · simp [clickStep, sweepMegaBoost, hb, hle]
        · by_cases he : u.energy < 1 <;>
            simp [clickStep, sweepMegaBoost, hb, hle, he]
  refine ⟨?_, ?_, ?_, ?_, hout⟩ <;>
  · cases hb : u.megaBoostExpiresAt with
    | none =>
        by_cases he : u.energy < 1
        · simp [clickStep, sweepMegaBoost, hb, he] at h
        · simp [clickStep, sweepMegaBoost, hb, he] at h
          simp [← h, sweepMegaBoost, hb, getTapValue]
    | some e =>
        by_cases hle : now ≤ e
        · simp [clickStep, sweepMegaBoost, hb, hle] at h
          simp [← h, sweepMegaBoost, hb, hle, getTapValue]
        · by_cases he : u.energy < 1
          · simp [clickStep, sweepMegaBoost, hb, hle, he] at h
          · simp [clickStep, sweepMegaBoost, hb, hle, he] at h
            simp [← h, sweepMegaBoost, hb, hle, getTapValue]

/-- Witness for C3's amended theorem at a concrete non-boosted tap. -/
theorem tap_multiplier_is_boost_only_witness :
    (clickStep baseUser 0).2 =
      .ok { coins := 1, energy := 99, tapValue := 1, multiplier := 1,
            actualGain := 1, megaBoostActive := false } ∧
    ({ coins := 1, energy := 99, tapValue := 1, multiplier := 1,
       actualGain := 1, megaBoostActive := false } : ClickResult).multiplier =
      (if (sweepMegaBoost baseUser 0).2 then 2 else 1) :=
  ⟨by norm_num [clickStep, sweepMegaBoost, getTapValue, baseUser],
   (tap_multiplier_is_boost_only baseUser 0 _
     (by norm_num [clickStep, sweepMegaBoost, getTapValue, baseUser])).1⟩

/-- Counterexample to C3 as stated: a tap by a `luck_level = 10` user
resolves to multiplier 1 with credit `base_tap * 1`; the outcome is the
same as for `luck_level = 0`, so no draw is classified into ×2/×3/×5
bands by luck. -/
theorem tap_has_no_critical_roll :
    (clickStep { baseUser with luckLevel := 10 } 0).2 =
      .ok { coins := 1, energy := 99, tapValue := 1, multiplier := 1,
            actualGain := 1, megaBoostActive := false } ∧
    (clickStep { baseUser with luckLevel := 10 } 0).2 =
      (clickStep { baseUser with luckLevel := 0 } 0).2 := by
  constructor <;> norm_num [clickStep, sweepMegaBoost, getTapValue, baseUser]

lemma lookup_UPGRADE_PRICES (t : String) (prices : List ℤ)
    (hmem : UPGRADE_PRICES.lookup t = some prices) :
    (t = "multitap" ∨ t = "profit" ∨ t = "energy") ∧
    prices = UPGRADE_PRICE_TABLE := by
  by_cases h1 : t = "multitap"
  · subst h1
    simp [UPGRADE_PRICES, List.lookup] at hmem
    exact ⟨Or.inl rfl, hmem.symm⟩
  · by_cases h2 : t = "profit"
    · subst h2
      simp [UPGRADE_PRICES, List.lookup] at hmem
      exact ⟨Or.inr (Or.inl rfl), hmem.symm⟩
    · by_cases h3 : t = "energy"
      · subst h3
        simp [UPGRADE_PRICES, List.lookup] at hmem
        exact ⟨Or.inr (Or.inr rfl), hmem.symm⟩
      · exfalso
        simp only [UPGRADE_PRICES, List.lookup,
          beq_eq_false_iff_ne.mpr h1, beq_eq_false_iff_ne.mpr h2,
          beq_eq_false_iff_ne.mpr h3] at hmem
        exact Option.noConfusion hmem

lemma setBoostLevel_luckLevel (u : UserState) (s : String) (l : ℕ) :
    (setBoostLevel u s l).luckLevel = u.luckLevel := by
  unfold setBoostLevel
  split_ifs <;> rfl

lemma setBoostLevel_coins (u : UserState) (s : String) (l : ℕ) :
    (setBoostLevel u s l).coins = u.coins := by
  unfold setBoostLevel
  split_ifs <;> rfl

lemma getBoostLevel_multitap (u : UserState) :
    getBoostLevel u "multitap" = u.multitapLevel := rfl

lemma getBoostLevel_profit (u : UserState) :
    getBoostLevel u "profit" = u.profitLevel := rfl

lemma getBoostLevel_energy (u : UserState) :
    getBoostLevel u "energy" = u.energyLevel := rfl

lemma setBoostLevel_multitap (u : UserState) (l : ℕ) :
    setBoostLevel u "multitap" l = { u with multitapLevel := l } := rfl

lemma setBoostLevel_profit (u : UserState) (l : ℕ) :
    setBoostLevel u "profit" l = { u with profitLevel := l } := rfl

lemma setBoostLevel_energy (u : UserState) (l : ℕ) :
    setBoostLevel u "energy" l = { u with energyLevel := l } := rfl

lemma processUpgrade_ok (u : UserState) (t : String) (prices : List ℤ)
    (hmem : UPGRADE_PRICES.lookup t = some prices)
    (hnge : ¬ prices.length ≤ getBoostLevel u t)
    (hnc : ¬ u.coins < prices.getD (getBoostLevel u t) 0) :
    processUpgrade u t =
      (if t = "profit" then
        .ok { setBoostLevel
                { u with coins := u.coins - prices.getD (getBoostLevel u t) 0 }
                t (getBoostLevel u t + 1) with
              profitPerHour := getHourValue (getBoostLevel u t + 1) }
      else if t = "energy" then
        .ok { setBoostLevel
                { u with coins := u.coins - prices.getD (getBoostLevel u t) 0 }
                t (getBoostLevel u t + 1) with
              maxEnergy := getMaxEnergy (getBoostLevel u t + 1),
              energy := getMaxEnergy (getBoostLevel u t + 1) }
      else
        .ok (setBoostLevel
              { u with coins := u.coins - prices.getD (getBoostLevel u t) 0 }
              t (getBoostLevel u t + 1))) := by
  simp only [List.getD_eq_getElem?_getD] at hnc
  simp [processUpgrade, hmem, hnge, hnc]

/-- C2: on an existing user, an upgrade of a valid track fails with
`MaxLevelReached` once the current level is at or past the end of the
price table; otherwise it costs the zero-indexed table entry at the
current level, fails with `InsufficientFunds` (no write happens) when
the coins do not cover it, and on success debits exactly that price and
increments exactly that track's level by 1. -/
theorem upgrade_price_is_table_entry (u : UserState) (t : String)
    (prices : List ℤ) (hmem : UPGRADE_PRICES.lookup t = some prices) :
    (prices.length ≤ getBoostLevel u t →
       processUpgrade u t = .error .maxLevelReached) ∧
    (getBoostLevel u t < prices.length →
       (u.coins < prices.getD (getBoostLevel u t) 0 →
          processUpgrade u t = .error .notEnoughCoins) ∧
       (prices.getD (getBoostLevel u t) 0 ≤ u.coins →
          ∃ u', processUpgrade u t = .ok u' ∧
            u'.coins = u.coins - prices.getD (getBoostLevel u t) 0 ∧
            getBoostLevel u' t = getBoostLevel u t + 1)) := by
  constructor
  · intro hge
    simp [processUpgrade, hmem, hge]
  · intro hlt
    have hnge : ¬ prices.length ≤ getBoostLevel u t := by omega
    constructor
    · intro hc
      simp only [List.getD_eq_getElem?_getD] at hc
      simp [processUpgrade, hmem, hnge, hc]
    · intro hc
      have hnc : ¬ u.coins < prices.getD (getBoostLevel u t) 0 :=
        not_lt.mpr hc
      rcases (lookup_UPGRADE_PRICES t prices hmem).1 with h | h | h <;> subst h
      · rw [processUpgrade_ok _ _ prices hmem hnge hnc,
          if_neg (by decide : ¬("multitap" = "profit")),
          if_neg (by decide : ¬("multitap" = "energy"))]
        exact ⟨_, rfl, by simp [setBoostLevel_multitap],
          by simp [getBoostLevel_multitap, setBoostLevel_multitap]⟩
      · rw [processUpgrade_ok _ _ prices hmem hnge hnc, if_pos rfl]
        exact ⟨_, rfl, by simp [setBoostLevel_profit],
          by simp [getBoostLevel_profit, setBoostLevel_profit]⟩
      · rw [processUpgrade_ok _ _ prices hmem hnge hnc,
          if_neg (by decide : ¬("energy" = "profit")), if_pos rfl]
        exact ⟨_, rfl, by simp [setBoostLevel_energy],
          by simp [getBoostLevel_energy, setBoostLevel_energy]⟩

/-- Witness for C2: a multitap upgrade at level 0 with 100 coins. -/
theorem upgrade_price_is_table_entry_witness :
    UPGRADE_PRICES.lookup "multitap" = some UPGRADE_PRICE_TABLE ∧
    ((UPGRADE_PRICE_TABLE.length ≤
        getBoostLevel { baseUser with coins := 100 } "multitap" →
       processUpgrade { baseUser with coins := 100 } "multitap" =
         .error .maxLevelReached) ∧
    (getBoostLevel { baseUser with coins := 100 } "multitap" <
        UPGRADE_PRICE_TABLE.length →
       (({ baseUser with coins := 100 } : UserState).coins <
           UPGRADE_PRICE_TABLE.getD
             (getBoostLevel { baseUser with coins := 100 } "multitap") 0 →
          processUpgrade { baseUser with coins := 100 } "multitap" =
            .error .notEnoughCoins) ∧
       (UPGRADE_PRICE_TABLE.getD
           (getBoostLevel { baseUser with coins := 100 } "multitap") 0 ≤
          ({ baseUser with coins := 100 } : UserState).coins →
          ∃ u', processUpgrade { baseUser with coins := 100 } "multitap" =
              .ok u' ∧
            u'.coins = ({ baseUser with coins := 100 } : UserState).coins -
              UPGRADE_PRICE_TABLE.getD
                (getBoostLevel { baseUser with coins := 100 } "multitap") 0 ∧
            getBoostLevel u' "multitap" =
              getBoostLevel { baseUser with coins := 100 } "multitap" + 1))) :=
  ⟨by decide,
   upgrade_price_is_table_entry { baseUser with coins := 100 } "multitap"
     UPGRADE_PRICE_TABLE (by decide)⟩

/-- C8: a successful energy-track upgrade from level L recomputes
`max_energy` as `get_max_energy(L+1)` (table value, extrapolated by ×1.5
per level past the table's end) and refills `energy` to the new max in
the same upgrade. -/
theorem energy_upgrade_refills_to_new_max (u u' : UserState)
    (h : processUpgrade u "energy" = .ok u') :
    u'.energyLevel = u.energyLevel + 1 ∧
    u'.maxEnergy = getMaxEnergy (u.energyLevel + 1) ∧
    u'.energy = u'.maxEnergy := by
  have hmem : UPGRADE_PRICES.lookup "energy" = some UPGRADE_PRICE_TABLE := by
    decide
  by_cases hge : UPGRADE_PRICE_TABLE.length ≤ getBoostLevel u "energy"
  · rw [show processUpgrade u "energy" = .error .maxLevelReached by
      simp [processUpgrade, hmem, hge]] at h
    simp at h
  · by_cases hc :
        u.coins < UPGRADE_PRICE_TABLE.getD (getBoostLevel u "energy") 0
    · rw [show processUpgrade u "energy" = .error .notEnoughCoins by
        simp only [List.getD_eq_getElem?_getD] at hc
        simp [processUpgrade, hmem, hge, hc]] at h
      simp at h
    · rw [processUpgrade_ok u "energy" UPGRADE_PRICE_TABLE hmem hge hc,
        if_neg (by decide : ¬("energy" = "profit")), if_pos rfl] at h
      injection h with h
      subst h
      refine ⟨?_, ?_, ?_⟩ <;>
        simp [getBoostLevel_energy, setBoostLevel_energy]

/-- Witness for C8: the first energy upgrade lifts max energy to the
table value at level 1 and refills energy to it. -/
theorem energy_upgrade_refills_to_new_max_witness :
    ∃ u', processUpgrade { baseUser with coins := 100 } "energy" = .ok u' ∧
      u'.energyLevel =
        ({ baseUser with coins := 100 } : UserState).energyLevel + 1 ∧
      u'.maxEnergy = getMaxEnergy
        (({ baseUser with coins := 100 } : UserState).energyLevel + 1) ∧
      u'.energy = u'.maxEnergy :=
  ⟨_, rfl, energy_upgrade_refills_to_new_max
    { baseUser with coins := 100 } _ rfl⟩

/-- C9 amended: "luck" is not a valid track.  The upgrade request
validator rejects it because `UPGRADE_PRICES` has only the keys
multitap, profit, energy, and no upgrade ever changes `luck_level`. -/
theorem luck_track_rejected :
    validateBoostType "luck" = false ∧
    UPGRADE_PRICES.lookup "luck" = none ∧
    (∀ (u : UserState) (boostType : String) (u' : UserState),
       processUpgrade u boostType = .ok u' → u'.luckLevel = u.luckLevel) := by
  refine ⟨by decide, by decide, ?_⟩
  intro u t u' h
  rcases hlook : UPGRADE_PRICES.lookup t with _ | prices
  · rw [show processUpgrade u t = .error .invalidBoostType by
      simp [processUpgrade, hlook]] at h
    simp at h
  · by_cases hge : prices.length ≤ getBoostLevel u t
    · rw [show processUpgrade u t = .error .maxLevelReached by
        simp [processUpgrade, hlook, hge]] at h
      simp at h
    · by_cases hc : u.coins < prices.getD (getBoostLevel u t) 0
      · rw [show processUpgrade u t = .error .notEnoughCoins by
          simp only [List.getD_eq_getElem?_getD] at hc
          simp [processUpgrade, hlook, hge, hc]] at h
        simp at h
      · rw [processUpgrade_ok u t prices hlook hge hc] at h
        by_cases h1 : t = "profit"
        · rw [if_pos h1] at h
          injection h with h
          subst h
          simp [setBoostLevel_luckLevel]
        · by_cases h2 : t = "energy"
          · rw [if_neg h1, if_pos h2] at h
            injection h with h
            subst h
            simp [setBoostLevel_luckLevel]
          · rw [if_neg h1, if_neg h2] at h
            injection h with h
            subst h
            simp [setBoostLevel_luckLevel]

/-- Witness for C9's amended theorem: a concrete successful multitap
upgrade leaves `luck_level` untouched. -/
theorem luck_track_rejected_witness :
    validateBoostType "luck" = false ∧
    (∀ u', processUpgrade { baseUser with coins := 100 } "multitap" = .ok u' →
       u'.luckLevel = ({ baseUser with coins := 100 } : UserState).luckLevel) :=
  ⟨luck_track_rejected.1,
   fun u' h => luck_track_rejected.2.2 { baseUser with coins := 100 }
     "multitap" u' h⟩

/-- Counterexample to C9 as stated: an Upgrade request with track name
"luck" is rejected by the boost-type validator (422) and, were it to
reach the engine, would fail as an invalid boost type even for a rich
user at luck level 0. -/
theorem luck_upgrade_rejected_counterexample :
    validateBoostType "luck" = false ∧
    processUpgrade { baseUser with coins := 100000 } "luck" =
      .error .invalidBoostType := by
  constructor
  · decide
  · rfl

/-- C7: activating the mega boost while one is live (now strictly before
`expires_at`) fails, reports the remaining seconds, and leaves the stored
`expires_at` unchanged; from Idle (no entry) it writes
`expires_at = now + 2 minutes`. -/
theorem boost_activation_no_restart (u : UserState) (now e : ℕ) :
    (u.megaBoostExpiresAt = some e → now < e →
       (activateMegaBoost u now).1.success = false ∧
       (activateMegaBoost u now).1.alreadyActive = true ∧
       (activateMegaBoost u now).1.remainingSeconds = some (e - now) ∧
       (activateMegaBoost u now).1.expiresAt = some e ∧
       (activateMegaBoost u now).2 = u) ∧
    (u.megaBoostExpiresAt = none →
       (activateMegaBoost u now).1.success = true ∧
       (activateMegaBoost u now).1.expiresAt = some (now + 120) ∧
       (activateMegaBoost u now).2 =
         { u with megaBoostExpiresAt := some (now + 120) }) := by
  constructor
  · intro hb hlt
    simp [activateMegaBoost, hb, hlt]
  · intro hb
    simp [activateMegaBoost, hb]

/-- Witness for C7: user 1 has a boost until instant 100; activating at
instant 40 fails with 60 seconds remaining and does not move the timer,
while an idle user activating at instant 40 gets expiry 160. -/
theorem boost_activation_no_restart_witness :
    (boostedUser.megaBoostExpiresAt = some 100 → 40 < 100 →
       (activateMegaBoost boostedUser 40).1.success = false ∧
       (activateMegaBoost boostedUser 40).1.alreadyActive = true ∧
       (activateMegaBoost boostedUser 40).1.remainingSeconds =
         some (100 - 40) ∧
       (activateMegaBoost boostedUser 40).1.expiresAt = some 100 ∧
       (activateMegaBoost boostedUser 40).2 = boostedUser) ∧
    (boostedUser.megaBoostExpiresAt = none →
       (activateMegaBoost boostedUser 40).1.success = true ∧
       (activateMegaBoost boostedUser 40).1.expiresAt = some (40 + 120) ∧
       (activateMegaBoost boostedUser 40).2 =
         { boostedUser with megaBoostExpiresAt := some (40 + 120) }) :=
  boost_activation_no_restart boostedUser 40 100

/-- C10 (code bug): the recomputed max energy at energy level 14 — a
level reachable through the 14-entry price table — is
`1400 * 1.5^4 = 7087.5`, which is not an integer, although the ledger
declares `max_energy` as an integer column. -/
theorem max_energy_not_integer_at_level_14 :
    getMaxEnergy 14 = 14175 / 2 ∧
    (¬ ∃ z : ℤ, getMaxEnergy 14 = (z : ℚ)) ∧
    (∃ u', processUpgrade { baseUser with coins := 100000, energyLevel := 13 }
        "energy" = .ok u' ∧
      u'.maxEnergy = getMaxEnergy 14 ∧ u'.energy = u'.maxEnergy) := by
  refine ⟨by norm_num [getMaxEnergy, ENERGY_VALUES], ?_, ⟨_, rfl, rfl, rfl⟩⟩
  rintro ⟨z, hz⟩
  rw [show getMaxEnergy 14 = 14175 / 2 by
    norm_num [getMaxEnergy, ENERGY_VALUES]] at hz
  have h2 : (2 : ℚ) * z = 14175 := by
    field_simp at hz
    linarith
  have h3 : (2 * z : ℤ) = 14175 := by exact_mod_cast h2
  omega

lemma pyInt_natCast_mul (a b : ℕ) :
    pyInt ((a : ℚ) * (b : ℚ)) = ((a * b : ℕ) : ℤ) := by
  unfold pyInt
  have h : ((a : ℚ) * (b : ℚ)) = (((a * b : ℕ)) : ℚ) := by
    push_cast
    ring
  rw [h, if_pos (by positivity), Int.floor_natCast]

lemma calculatePassiveIncome_mult_one (p m : ℕ) :
    calculatePassiveIncome p m 1 =
      ((getHourValue p / 6) * max 1 (m / 10) : ℕ) := by
  simp only [calculatePassiveIncome, mul_one]
  exact pyInt_natCast_mul _ _

/-- C5 amended: when the gate holds (`last_passive_income` unset, or at
least the effective interval elapsed) the computed payout is the floored
product `((hourly_rate // 6) * max(1, elapsed_min // 10)) * multiplier`;
a positive payout is credited and resets `last_passive_income` to now,
while a non-positive computed payout (e.g. when a client-supplied
multiplier such as 0 or 1/20 floors the product to 0) stores nothing —
coins and `last_passive_income` keep their old values — and the call
reports income 0.  When the
gate fails the call is a no-op returning income 0, not an error.  In
particular a user with hourly rate 100, default interval and no bonus is
paid 16 coins per elapsed 10-minute cycle. -/
theorem passive_income_payout (u : UserState) (now last : ℕ)
    (bonus : Option SkinBonus) (hle : last ≤ now) :
    (u.lastPassiveIncome = none →
       (0 < calculatePassiveIncome u.profitLevel 10 (bonusMultiplier bonus) →
          passiveIncome u now bonus =
            { coins := u.coins +
                calculatePassiveIncome u.profitLevel 10
                  (bonusMultiplier bonus),
              lastPassiveIncome := some now,
              income := calculatePassiveIncome u.profitLevel 10
                (bonusMultiplier bonus) }) ∧
       (calculatePassiveIncome u.profitLevel 10 (bonusMultiplier bonus) ≤ 0 →
          passiveIncome u now bonus =
            { coins := u.coins, lastPassiveIncome := none, income := 0 })) ∧
    (u.lastPassiveIncome = some last →
       (60 * bonusIntervalMinutes bonus ≤ now - last →
          (0 < calculatePassiveIncome u.profitLevel ((now - last) / 60)
              (bonusMultiplier bonus) →
            passiveIncome u now bonus =
              { coins := u.coins + calculatePassiveIncome u.profitLevel
                  ((now - last) / 60) (bonusMultiplier bonus),
                lastPassiveIncome := some now,
                income := calculatePassiveIncome u.profitLevel
                  ((now - last) / 60) (bonusMultiplier bonus) }) ∧
          (calculatePassiveIncome u.profitLevel ((now - last) / 60)
              (bonusMultiplier bonus) ≤ 0 →
            passiveIncome u now bonus =
              { coins := u.coins, lastPassiveIncome := some last,
                income := 0 })) ∧
       (now - last < 60 * bonusIntervalMinutes bonus →
          passiveIncome u now bonus =
            { coins := u.coins, lastPassiveIncome := some last,
              income := 0 })) ∧
    (u.lastPassiveIncome = some last → u.profitLevel = 0 → bonus = none →
       600 ≤ now - last →
       (passiveIncome u now bonus).income =
         16 * (((now - last) / 60 / 10 : ℕ) : ℤ)) := by
  refine ⟨?_, ?_, ?_⟩
  · intro hnone
    constructor
    · intro hpos
      simp [passiveIncome, hnone, hpos]
    · intro hle0
      simp [passiveIncome, hnone, not_lt.mpr hle0]
  · intro hsome
    refine ⟨?_, ?_⟩
    · intro hgate
      constructor
      · intro hpos
        simp [passiveIncome, hsome, hgate, hpos]
      · intro hle0
        simp [passiveIncome, hsome, hgate, not_lt.mpr hle0]
    · intro hlt
      simp [passiveIncome, hsome, not_le.mpr hlt]
  · intro hsome hp hb hgap
    subst hb
    have hgate : 60 * bonusIntervalMinutes none ≤ now - last := by
      simpa [bonusIntervalMinutes] using hgap
    have hcyc : max 1 ((now - last) / 60 / 10) = (now - last) / 60 / 10 := by
      omega
    have hinc : calculatePassiveIncome u.profitLevel ((now - last) / 60)
        (bonusMultiplier none) =
        ((16 * ((now - last) / 60 / 10) : ℕ) : ℤ) := by
      rw [hp, show bonusMultiplier none = 1 from rfl,
        calculatePassiveIncome_mult_one, hcyc]
      norm_num [getHourValue, HOUR_VALUES]
    have hpos : 0 < calculatePassiveIncome u.profitLevel ((now - last) / 60)
        (bonusMultiplier none) := by
      rw [hinc]
      have h1 : 1 ≤ (now - last) / 60 / 10 := by omega
      exact_mod_cast Nat.mul_pos (by norm_num) h1
    have hmain : passiveIncome u now none =
        { coins := u.coins + calculatePassiveIncome u.profitLevel
            ((now - last) / 60) (bonusMultiplier none),
          lastPassiveIncome := some now,
          income := calculatePassiveIncome u.profitLevel
            ((now - last) / 60) (bonusMultiplier none) } := by
      simp [passiveIncome, hsome, hgate, hpos]
    rw [hmain]
    show calculatePassiveIncome u.profitLevel ((now - last) / 60)
        (bonusMultiplier none) = 16 * (((now - last) / 60 / 10 : ℕ) : ℤ)
    rw [hinc]
    push_cast
    ring

/-- Witness for C5: 20 minutes elapsed at hourly rate 100 with no bonus
pays `16 * 2` coins. -/
theorem passive_income_payout_witness :
    (passiveIncome { baseUser with lastPassiveIncome := some 0 } 1200
        none).income = 16 * (((1200 - 0) / 60 / 10 : ℕ) : ℤ) :=
  (passive_income_payout { baseUser with lastPassiveIncome := some 0 }
    1200 0 none (by norm_num)).2.2 rfl rfl rfl (by norm_num)

/-- Counterexample to C5 as stated: with the interval gate satisfied but
a client-supplied multiplier of 0, the computed payout is 0 and
`last_passive_income` is NOT reset to now — it stays at its old value. -/
theorem passive_income_zero_multiplier_no_reset :
    60 * bonusIntervalMinutes (some (.multiplier 0)) ≤ 600 - 0 ∧
    (passiveIncome { baseUser with lastPassiveIncome := some 0 } 600
      (some (.multiplier 0))).income = 0 ∧
    (passiveIncome { baseUser with lastPassiveIncome := some 0 } 600
      (some (.multiplier 0))).lastPassiveIncome = some 0 ∧
    (some (0 : ℕ) ≠ some (600 : ℕ)) := by
  refine ⟨by norm_num [bonusIntervalMinutes], ?_, ?_, by norm_num⟩ <;>
    norm_num [passiveIncome, bonusMultiplier, bonusIntervalMinutes,
      calculatePassiveIncome, getHourValue, HOUR_VALUES, pyInt, baseUser]

/-- C6: creating invitee `i`'s row with referrer `r` credits `r`'s row
exactly once — `coins += 1000`, `referral_count += 1`,
`referral_earnings += 1000` — at creation time; replaying `add_user` or
`Register` for the same invitee changes nothing, `get_user` writes
nothing, and when the referrer's row does not exist the credit is
skipped and a replay does not retry it. -/
theorem referral_bonus_credited_once (db : DB) (i r : ℤ) (rec : DbUser)
    (hir : i ≠ r) (hr0 : r ≠ 0) (hi : db i = none) :
    (db r = some rec →
       addUser db i (some r) r =
         some { rec with
                  coins := rec.coins + BONUS_AMOUNT,
                  referralCount := rec.referralCount + 1,
                  referralEarnings := rec.referralEarnings + BONUS_AMOUNT } ∧
       addUser db i (some r) i = some (newDbUser (some r)) ∧
       (∀ uid, addUser (addUser db i (some r)) i (some r) uid =
          addUser db i (some r) uid) ∧
       (∀ uid, registerUser (addUser db i (some r)) i (some r) uid =
          addUser db i (some r) uid) ∧
       (∀ uid, getUserDb (addUser db i (some r)) i uid =
          addUser db i (some r) uid)) ∧
    (db r = none →
       addUser db i (some r) r = none ∧
       addUser db i (some r) i = some (newDbUser (some r)) ∧
       (∀ uid, addUser (addUser db i (some r)) i (some r) uid =
          addUser db i (some r) uid)) := by
  have hf : addUser db i (some r) =
      addReferralBonus
        (fun v => if v = i then some (newDbUser (some r)) else db v) r := by
    simp [addUser, hi, hr0]
  constructor
  · intro hr
    have hb : addReferralBonus
        (fun v => if v = i then some (newDbUser (some r)) else db v) r =
        fun uid =>
          if uid = r then
            some { rec with
                     coins := rec.coins + BONUS_AMOUNT,
                     referralCount := rec.referralCount + 1,
                     referralEarnings := rec.referralEarnings + BONUS_AMOUNT }
          else if uid = i then some (newDbUser (some r)) else db uid := by
      rw [addReferralBonus, if_neg (Ne.symm hir), hr]
    have hat_r : addUser db i (some r) r =
        some { rec with
                 coins := rec.coins + BONUS_AMOUNT,
                 referralCount := rec.referralCount + 1,
                 referralEarnings := rec.referralEarnings + BONUS_AMOUNT } := by
      rw [hf, hb]
      simp
    have hat_i : addUser db i (some r) i = some (newDbUser (some r)) := by
      rw [hf, hb]
      simp [hir]
    have hreplay : ∀ uid, addUser (addUser db i (some r)) i (some r) uid =
        addUser db i (some r) uid := by
      intro uid
      rw [show addUser (addUser db i (some r)) i (some r) =
            addUser db i (some r) by
        rw [addUser, hat_i]]
    refine ⟨hat_r, hat_i, hreplay, fun uid => ?_, fun uid => rfl⟩
    rw [show registerUser (addUser db i (some r)) i (some r) =
          addUser db i (some r) by
      rw [registerUser, hat_i]]
  · intro hr
    have hb : addReferralBonus
        (fun v => if v = i then some (newDbUser (some r)) else db v) r =
        fun v => if v = i then some (newDbUser (some r)) else db v := by
      rw [addReferralBonus, if_neg (Ne.symm hir), hr]
    have hat_r : addUser db i (some r) r = none := by
      rw [hf, hb]
      simp [Ne.symm hir, hr]
    have hat_i : addUser db i (some r) i = some (newDbUser (some r)) := by
      rw [hf, hb]
      simp
    refine ⟨hat_r, hat_i, fun uid => ?_⟩
    rw [show addUser (addUser db i (some r)) i (some r) =
          addUser db i (some r) by
      rw [addUser, hat_i]]

/-- Witness for C6: user 2 registers with referrer 1 in a table holding
only user 1 with 5 coins; user 1 ends with 1005 coins, one referral, and
replaying the registration changes nothing. -/
theorem referral_bonus_credited_once_witness :
    addUser dbW 2 (some 1) 1 =
      some { coins := 5 + BONUS_AMOUNT, referrerId := none,
             referralCount := 0 + 1, referralEarnings := 0 + BONUS_AMOUNT } ∧
    (∀ uid, addUser (addUser dbW 2 (some 1)) 2 (some 1) uid =
       addUser dbW 2 (some 1) uid) := by
  have h := (referral_bonus_credited_once dbW 2 1
    { coins := 5, referrerId := none, referralCount := 0,
      referralEarnings := 0 }
    (by decide) (by decide) rfl).1 rfl
  exact ⟨h.1, h.2.2.1⟩

end Clicker
